import Mathlib

/-!
Verification of `pyaldex2.py` (ALDEx2-python), a thin pandas/rpy2 adapter around
the external ALDEx2 R library, against its natural-language specification.

The source file is shallowly embedded below.  Tabular pandas structures are
modelled by `DataFrame` (row labels, column labels, row-major data).  The
external R routines (`run_aldex`, `get_clr` in the sourced R script) are black
boxes: `run_aldex2` is embedded as the function computing the argument tuple
handed to the external routine, and the CLR extraction functions are
parameterised by an oracle giving the entries of the matrix the external
routine returns.  Python exceptions raised before the external invocation are
modelled by the error constructors of `RunResult`:

  * `assertionError` — the explicit `assert` on the sample dimensions;
  * `pandasError`    — exceptions raised inside pandas/numpy before the
    external call (`KeyError` from `metadata.loc[...]` on a missing sample
    label, `IndexError` from `.iloc[:, 0]` on a metadata table without
    columns, `ValueError` from `.values.min()` on an empty value-count array).

Machine arithmetic: counts are natural numbers, CLR values are rationals.
`int(1000 / m)` in Python is float division followed by truncation; for any
integer `m ≥ 1` the quotient `1000 / m` is never within one double ulp of an
integer it does not equal, so the truncation equals exact floor division and
is embedded as `Nat` division `1000 / m`.
-/

namespace PyAldex2

/-- A pandas `DataFrame` with row index `rowIdx`, column index `colIdx`, and
row-major `data`.  `shape = (rowIdx.length, colIdx.length)`. -/
structure DataFrame (α : Type) where
  rowIdx : List String
  colIdx : List String
  data : List (List α)
deriving DecidableEq, Repr

instance {α : Type} : Inhabited (DataFrame α) := ⟨⟨[], [], []⟩⟩

/-- Well-formedness of a `DataFrame`: the data is rectangular with one row per
row label and one entry per column label (pandas frames are always such). -/
def DataFrame.WF {α : Type} (df : DataFrame α) : Prop :=
  df.data.length = df.rowIdx.length ∧ ∀ row ∈ df.data, row.length = df.colIdx.length

/-- `df.T` (pandas transpose): row and column indices swap, entry `(c, r)` of
the result is entry `(r, c)` of `df`. -/
def DataFrame.T {α : Type} [Inhabited α] (df : DataFrame α) : DataFrame α :=
  { rowIdx := df.colIdx
    colIdx := df.rowIdx
    data := (List.range df.colIdx.length).map fun c =>
      df.data.map fun row => row.getD c default }

/-- Entry `(r, c)` of a data frame (out-of-range reads give `default`; all
uses are guarded by bounds). -/
def DataFrame.entry {α : Type} [Inhabited α] (df : DataFrame α) (r c : Nat) : α :=
  (df.data.getD r []).getD c default

/-- Lines 44-45 / 93-94 of `pyaldex2.py`:
`if input_counts.shape[1] != metadata.shape[0]: input_counts = input_counts.T`.
The counts frame is transposed whenever its column count differs from the
metadata row count. -/
def fixOrientation {α β : Type} [Inhabited α] (counts : DataFrame α)
    (metadata : DataFrame β) : DataFrame α :=
  if counts.colIdx.length ≠ metadata.rowIdx.length then counts.T else counts

/-- Outcome of the Python code leading up to the external invocation. -/
inductive RunResult (α : Type) where
  | ok (a : α)
  | assertionError
  | pandasError
deriving DecidableEq, Repr

/-- `metadata.loc[cols].iloc[:, 0].values.tolist()` (lines 49-50 / 98-99):
for each requested label, all metadata rows carrying that label (in index
order, as pandas `.loc` returns them), then the first column of each.
`none` models the pandas exceptions: `KeyError` when some requested label is
absent from the metadata index, `IndexError` when the metadata has no
columns. -/
def condVector (md : DataFrame String) (cols : List String) : Option (List String) :=
  if cols.all (fun s => (md.rowIdx.zip md.data).any (fun p => p.1 == s)) then
    if md.colIdx.length = 0 then none
    else some (cols.flatMap fun s =>
      ((md.rowIdx.zip md.data).filter (fun p => p.1 == s)).map (fun p => p.2.headD ""))
  else none

/-- Lines 43-51 / 92-100 of `pyaldex2.py`, shared by `run_aldex2` and
`get_clr_instance`: copy the counts, fix the orientation, assert that the
sample dimensions agree, and extract the condition vector from the metadata
reordered to the counts columns. -/
def prepare (counts : DataFrame Nat) (metadata : DataFrame String) :
    RunResult (DataFrame Nat × List String) :=
  if (fixOrientation counts metadata).colIdx.length = metadata.rowIdx.length then
    match condVector metadata (fixOrientation counts metadata).colIdx with
    | some cond => .ok (fixOrientation counts metadata, cond)
    | none => .pandasError
  else .assertionError

/-- `metadata.value_counts().values.min()`: the least multiplicity among the
distinct labels occurring in `l` (`none` on an empty series, where numpy
raises `ValueError`). -/
def valueCountsMin (l : List String) : Option Nat :=
  (l.dedup.map fun s => l.count s).min?

/-- Lines 52-57 / 101-106 of `pyaldex2.py`: Monte-Carlo sample count.
`none` is the `"auto"` sentinel, resolved to `int(1000 / min group size)`;
an explicit count passes through `int` unchanged. -/
def resolveMc (cond : List String) (mc_samples : Option Nat) : RunResult Nat :=
  match mc_samples with
  | some n => .ok n
  | none =>
    match valueCountsMin cond with
    | some m => .ok (1000 / m)
    | none => .pandasError

/-- The argument tuple `(df_r, cond, montecarlo_samples, test)` handed to the
external R routine `run_aldex` at line 62 of `pyaldex2.py`. -/
structure AldexCall where
  countsPassed : DataFrame Nat
  cond : List String
  mcSamples : Nat
  test : String
deriving DecidableEq, Repr

/-- `run_aldex2` (lines 13-66 of `pyaldex2.py`), embedded as the computation
of the argument tuple passed to the external R routine; the routine itself
and the final conversion of its result are the external black box. -/
def run_aldex2 (counts : DataFrame Nat) (metadata : DataFrame String)
    (test : String) (mc_samples : Option Nat) : RunResult AldexCall :=
  match prepare counts metadata with
  | .ok (input_counts, cond) =>
    match resolveMc cond mc_samples with
    | .ok m => .ok ⟨input_counts, cond, m, test⟩
    | .assertionError => .assertionError
    | .pandasError => .pandasError
  | .assertionError => .assertionError
  | .pandasError => .pandasError

/-- Line 107-109 of `pyaldex2.py`:
`input_counts = input_counts.loc[input_counts.sum(1) > 0]` — keep exactly the
feature rows whose row sum is positive. -/
def dropZeroRows (df : DataFrame Nat) : DataFrame Nat :=
  let kept := (df.rowIdx.zip df.data).filter fun p => 0 < p.2.sum
  { rowIdx := kept.map Prod.fst
    colIdx := df.colIdx
    data := kept.map Prod.snd }

/-- Entries of the matrix returned by the external R routine `get_clr`, as a
black-box oracle: arguments are the counts frame passed, the condition
vector, the Monte-Carlo sample count, the instance index, and the (row,
column) position. -/
def ROracle : Type :=
  DataFrame Nat → List String → Nat → Nat → Nat → Nat → ℚ

/-- The argument tuple `(df_r, cond, montecarlo_samples, instance)` handed to
the external R routine `get_clr` at line 113 of `pyaldex2.py`. -/
structure ClrCall where
  countsPassed : DataFrame Nat
  cond : List String
  mcSamples : Nat
  instanceIdx : Nat
deriving DecidableEq, Repr

/-- Lines 115-120 of `pyaldex2.py`: the frame wrapped around the matrix the
external routine returns, `pd.DataFrame(..., columns=metadata.index,
index=input_counts.index)` (after the reorder, `metadata.index` is exactly
the column index of the filtered counts frame). -/
def clrResultFrame (oracle : ROracle) (input_counts : DataFrame Nat)
    (cond : List String) (m instanceIdx : Nat) : DataFrame ℚ :=
  { rowIdx := input_counts.rowIdx
    colIdx := input_counts.colIdx
    data := (List.range input_counts.rowIdx.length).map fun r =>
      (List.range input_counts.colIdx.length).map fun c =>
        oracle input_counts cond m instanceIdx r c }

/-- `get_clr_instance` (lines 69-121 of `pyaldex2.py`): prepare, resolve the
Monte-Carlo count, drop all-zero feature rows, invoke the external routine
(the oracle), and wrap its matrix in a frame with `columns=metadata.index`
(the reordered sample labels, i.e. the counts columns) and
`index=input_counts.index` (the surviving features).  The embedding returns
the external argument tuple alongside the resulting frame. -/
def get_clr_instance (oracle : ROracle) (counts : DataFrame Nat)
    (metadata : DataFrame String) (instanceIdx : Nat) (mc_samples : Option Nat) :
    RunResult (ClrCall × DataFrame ℚ) :=
  match prepare counts metadata with
  | .ok (input_counts0, cond) =>
    match resolveMc cond mc_samples with
    | .ok m =>
      .ok (⟨dropZeroRows input_counts0, cond, m, instanceIdx⟩,
        clrResultFrame oracle (dropZeroRows input_counts0) cond m instanceIdx)
    | .assertionError => .assertionError
    | .pandasError => .pandasError
  | .assertionError => .assertionError
  | .pandasError => .pandasError

/-- The values of a series sorted ascending (insertion sort; any correct
sort gives the same list, and the result depends only on the multiset of
values, see `sortedVals_perm`). -/
def sortedVals (l : List ℚ) : List ℚ :=
  l.insertionSort (· ≤ ·)

/-- `pd.Series.median`: sort the values, take the middle one (odd length) or
the mean of the two middle ones (even length).  (pandas yields `NaN` on an
empty series; `0` here, unused.) -/
def median (l : List ℚ) : ℚ :=
  if (sortedVals l).length = 0 then 0
  else if (sortedVals l).length % 2 = 1 then
    (sortedVals l).getD ((sortedVals l).length / 2) 0
  else
    ((sortedVals l).getD ((sortedVals l).length / 2 - 1) 0 +
      (sortedVals l).getD ((sortedVals l).length / 2) 0) / 2

/-- Lines 149-153 of `pyaldex2.py`:
`pd.concat([each.stack() for each in dfs.values()], axis=1).apply(lambda x:
x.median(), axis=1).unstack()`.  The per-instance frames all share the same
row and column labels (they are produced by `get_clr_instance` on the same
inputs), and on frames with a common index this stack/concat/median/unstack
pipeline is the element-wise median across the frames. -/
def medianAggregate (dfs : List (DataFrame ℚ)) : DataFrame ℚ :=
  match dfs with
  | [] => ⟨[], [], []⟩
  | d :: _ =>
    { rowIdx := d.rowIdx
      colIdx := d.colIdx
      data := (List.range d.rowIdx.length).map fun r =>
        (List.range d.colIdx.length).map fun c =>
          median (dfs.map fun e => e.entry r c) }

/-- Sequencing of the per-instance calls of `get_clr`: the first error
propagates (a Python exception aborts the loop). -/
def mapRR {α : Type} (f : Nat → RunResult α) : List Nat → RunResult (List α)
  | [] => .ok []
  | i :: is =>
    match f i with
    | .ok a =>
      match mapRR f is with
      | .ok as => .ok (a :: as)
      | .assertionError => .assertionError
      | .pandasError => .pandasError
    | .assertionError => .assertionError
    | .pandasError => .pandasError

/-- `get_clr` (lines 124-154 of `pyaldex2.py`): one `get_clr_instance` call
per instance index `1, ..., mc_samples` (Python `range(1, mc_samples + 1)`),
then the element-wise median across the collected frames. -/
def get_clr (oracle : ROracle) (counts : DataFrame Nat)
    (metadata : DataFrame String) (mc_samples : Nat) : RunResult (DataFrame ℚ) :=
  match mapRR
      (fun i => get_clr_instance oracle counts metadata i (some mc_samples))
      ((List.range mc_samples).map (· + 1)) with
  | .ok insts => .ok (medianAggregate (insts.map Prod.snd))
  | .assertionError => .assertionError
  | .pandasError => .pandasError

/-! ### MA plot (lines 157-216 of `pyaldex2.py`)

The rendering calls (`seaborn.scatterplot`, axis labels, title) are purely
presentational; the algorithmic content of `MA_plot` — the effect-size
bucketing, its hue labels, and the legend decision — is embedded below. -/

/-- Line 183-185: `"big" if abs(x) > effect_threshold else "small"`. -/
def ma_size (thr x : ℚ) : String :=
  if thr < |x| then "big" else "small"

/-- Lines 178-182: the hue label of a row,
`f"abs(effect) > {t}"` when `abs(x) > t`, else `f"abs(effect) < {t}"`. -/
def ma_hue (thr x : ℚ) : String :=
  if thr < |x| then "abs(effect) > " ++ toString thr
  else "abs(effect) < " ++ toString thr

/-- Lines 209-212: the legend is removed exactly when
`len(results["size"].value_counts()) == 1`, i.e. when the `size` column holds
exactly one distinct value; otherwise the legend is kept (restricted to
handles 1..2, the two hue entries). -/
def ma_legendRemoved (thr : ℚ) (effects : List ℚ) : Bool :=
  ((effects.map (ma_size thr)).dedup).length = 1

/-! ### Heap model for the frame conditions (claim on copy semantics)

Python data frames are heap objects; `df.copy()` allocates a fresh object and
statements of the form `df[col] = ...` or `series.loc[mask] = ...` mutate the
object in place.  A heap is a list of cells; allocation appends, mutation
writes through `List.set`.  Each public function of `pyaldex2.py` is embedded
once more at this level, statement by statement: every expression producing a
new pandas object allocates, every in-place assignment writes to the cell it
targets, and plain Python rebindings touch no cell. -/

/-- A pandas cell value as stored in a results-style table: a number, a
string, or `None` (written into the `hue` series by `vulcano_plot`). -/
inductive PyVal where
  | num (q : ℚ)
  | str (s : String)
  | null
deriving DecidableEq, Repr

/-- Numeric reading of a cell (used where the Python code applies numeric
operations to a column). -/
def PyVal.toQ : PyVal → ℚ
  | .num q => q
  | _ => 0

/-- A results-style pandas object: a row index plus named columns. -/
structure PyTable where
  rowIdx : List String
  cols : List (String × List PyVal)
deriving DecidableEq, Repr

instance : Inhabited PyTable := ⟨⟨[], []⟩⟩

/-- Column read `t[name]` (missing column reads as empty; all uses in the
embedded code target columns the code just created or requires). -/
def PyTable.getCol (t : PyTable) (name : String) : List PyVal :=
  (t.cols.lookup name).getD []

/-- In-place column write `t[name] = v`: replace the column if present,
append it otherwise. -/
def PyTable.setCol (t : PyTable) (name : String) (v : List PyVal) : PyTable :=
  if t.cols.any (fun p => p.1 == name) then
    { t with cols := t.cols.map fun p => if p.1 == name then (p.1, v) else p }
  else { t with cols := t.cols ++ [(name, v)] }

/-- Heap objects touched by `run_aldex2` / `get_clr_instance`: numeric frames
(counts) and string frames (metadata and series derived from it). -/
inductive PyObj where
  | ndf (d : DataFrame Nat)
  | sdf (d : DataFrame String)
deriving DecidableEq, Repr

instance : Inhabited PyObj := ⟨.ndf default⟩

/-- The numeric frame held in a cell. -/
def PyObj.asN : PyObj → DataFrame Nat
  | .ndf d => d
  | _ => default

/-- The string frame held in a cell. -/
def PyObj.asS : PyObj → DataFrame String
  | .sdf d => d
  | _ => default

/-- `metadata.loc[labels]` as a frame: for each requested label, all matching
metadata rows in index order. -/
def locFrame (md : DataFrame String) (labels : List String) : DataFrame String :=
  let pairs := labels.flatMap fun s =>
    (md.rowIdx.zip md.data).filter (fun p => p.1 == s)
  ⟨pairs.map Prod.fst, md.colIdx, pairs.map Prod.snd⟩

/-- Heap-level embedding of `run_aldex2` (lines 43-62): `counts.copy()`
allocates, the conditional transpose allocates a new object, the
`metadata.loc[...].iloc[:, 0]` rebinding allocates the reordered series.  No
statement writes to an existing cell. -/
def run_aldex2_heap (h : List PyObj) (countsRef mdRef : Nat) : List PyObj :=
  let counts := (h.getD countsRef default).asN
  let md := (h.getD mdRef default).asS
  -- input_counts = counts.copy()
  let h1 := h ++ [PyObj.ndf counts]
  -- if input_counts.shape[1] != metadata.shape[0]: input_counts = input_counts.T
  let input_counts := fixOrientation counts md
  let h2 := if counts.colIdx.length ≠ md.rowIdx.length
    then h1 ++ [PyObj.ndf counts.T] else h1
  -- metadata = metadata.loc[input_counts.columns].iloc[:, 0]
  h2 ++ [PyObj.sdf (locFrame md input_counts.colIdx)]

/-- Heap-level embedding of `get_clr_instance` (lines 92-113): as
`run_aldex2_heap`, plus the rebinding
`input_counts = input_counts.loc[input_counts.sum(1) > 0]`, which also
allocates.  No statement writes to an existing cell. -/
def get_clr_instance_heap (h : List PyObj) (countsRef mdRef : Nat) : List PyObj :=
  let counts := (h.getD countsRef default).asN
  let md := (h.getD mdRef default).asS
  let h1 := h ++ [PyObj.ndf counts]
  let input_counts := fixOrientation counts md
  let h2 := if counts.colIdx.length ≠ md.rowIdx.length
    then h1 ++ [PyObj.ndf counts.T] else h1
  let h3 := h2 ++ [PyObj.sdf (locFrame md input_counts.colIdx)]
  h3 ++ [PyObj.ndf (dropZeroRows input_counts)]

/-- Heap-level embedding of `MA_plot` (lines 177-184):
`results = results_input.copy()` allocates a fresh cell, and the two column
assignments (`effect_hue`, `size`) write to that fresh cell only. -/
def MA_plot_heap (h : List PyTable) (resultsRef : Nat) (thr : ℚ) : List PyTable :=
  -- results = results_input.copy()
  let h1 := h ++ [h.getD resultsRef default]
  let r := h.length
  -- results["effect_hue"] = results["effect"].apply(...)
  let t1 := h1.getD r default
  let h2 := h1.set r
    (t1.setCol "effect_hue" ((t1.getCol "effect").map fun v => .str (ma_hue thr v.toQ)))
  -- results["size"] = results["effect"].apply(...)
  let t2 := h2.getD r default
  h2.set r
    (t2.setCol "size" ((t2.getCol "effect").map fun v => .str (ma_size thr v.toQ)))

/-- Lines 243-248 of `pyaldex2.py`:
`results[["diff.btw", "we.eBH"]].reset_index().rename(columns={"index":
"gene"}).rename(columns={"diff.btw": "median_diff", "we.eBH": "pBH"})` — a
fresh frame whose `gene` column is the old row index and whose index is the
positional range index introduced by `reset_index`. -/
def vulcano_select (t : PyTable) : PyTable :=
  { rowIdx := (List.range t.rowIdx.length).map toString
    cols := [("gene", t.rowIdx.map PyVal.str),
             ("median_diff", t.getCol "diff.btw"),
             ("pBH", t.getCol "we.eBH")] }

/-- Heap-level embedding of `vulcano_plot` (lines 242-262): the copy and the
select/reset_index/rename chain allocate fresh cells, the `log_pValue` /
`log_FC` column assignments write to the fresh `for_vulcano` cell, the
`hue = for_vulcano.gene.copy()` allocates, and the masked assignment
`hue.loc[logPvalues < -np.log10(pBH_threshold) * 0.99] = None` writes to the
fresh `hue` cell.  `log10` is the (floating-point, external) `np.log10`,
taken as a parameter. -/
def vulcano_plot_heap (log10 : ℚ → ℚ) (h : List PyTable) (resultsRef : Nat)
    (pBH_threshold : ℚ) : List PyTable :=
  -- results = results_input.copy()
  let h1 := h ++ [h.getD resultsRef default]
  let r := h.length
  -- for_vulcano = results[[...]].reset_index().rename(...).rename(...)
  let h2 := h1 ++ [vulcano_select (h1.getD r default)]
  let fv := h1.length
  -- for_vulcano["log_pValue"] = for_vulcano["pBH"].apply(lambda x: -np.log10(x))
  let t1 := h2.getD fv default
  let h3 := h2.set fv
    (t1.setCol "log_pValue" ((t1.getCol "pBH").map fun v => .num (-(log10 v.toQ))))
  -- for_vulcano["log_FC"] = for_vulcano["median_diff"]
  let t2 := h3.getD fv default
  let h4 := h3.set fv (t2.setCol "log_FC" (t2.getCol "median_diff"))
  -- hue = for_vulcano.gene.copy()
  let t3 := h4.getD fv default
  let h5 := h4 ++ [PyTable.mk t3.rowIdx [("gene", t3.getCol "gene")]]
  let hu := h4.length
  -- hue.loc[logPvalues < -np.log10(pBH_threshold) * 0.99] = None
  let t4 := h5.getD hu default
  let lp := (h5.getD fv default).getCol "log_pValue"
  h5.set hu
    (t4.setCol "gene"
      (List.zipWith
        (fun g l => if l.toQ < -(log10 pBH_threshold) * (99 / 100 : ℚ) then PyVal.null else g)
        (t4.getCol "gene") lp))

/-! ## Shared elimination lemmas -/

theorem prepare_ok_elim {counts : DataFrame Nat} {md : DataFrame String}
    {pr : DataFrame Nat × List String} (h : prepare counts md = .ok pr) :
    pr.1 = fixOrientation counts md ∧ pr.1.colIdx.length = md.rowIdx.length ∧
      condVector md pr.1.colIdx = some pr.2 := by
  unfold prepare at h
  by_cases hc : (fixOrientation counts md).colIdx.length = md.rowIdx.length
  · rw [if_pos hc] at h
    cases hcv : condVector md (fixOrientation counts md).colIdx with
    | none => rw [hcv] at h; exact absurd h (by simp)
    | some cond =>
      rw [hcv] at h
      injection h with h
      subst h
      exact ⟨rfl, hc, hcv⟩
  · rw [if_neg hc] at h
    exact absurd h (by simp)

theorem prepare_assertion_iff (counts : DataFrame Nat) (md : DataFrame String) :
    prepare counts md = .assertionError ↔
      (fixOrientation counts md).colIdx.length ≠ md.rowIdx.length := by
  unfold prepare
  by_cases hc : (fixOrientation counts md).colIdx.length = md.rowIdx.length
  · rw [if_pos hc]
    cases condVector md (fixOrientation counts md).colIdx <;> simp [hc]
  · rw [if_neg hc]
    simp [hc]

theorem prepare_pandas_elim {counts : DataFrame Nat} {md : DataFrame String}
    (h : prepare counts md = .pandasError) :
    (fixOrientation counts md).colIdx.length = md.rowIdx.length := by
  by_contra hc
  rw [(prepare_assertion_iff counts md).mpr hc] at h
  exact absurd h (by simp)

theorem resolveMc_ne_assertion (cond : List String) (mc : Option Nat) :
    resolveMc cond mc ≠ .assertionError := by
  unfold resolveMc
  cases mc with
  | some n => simp
  | none => cases valueCountsMin cond <;> simp

theorem run_aldex2_ok_elim {counts : DataFrame Nat} {md : DataFrame String}
    {test : String} {mc : Option Nat} {call : AldexCall}
    (h : run_aldex2 counts md test mc = .ok call) :
    prepare counts md = .ok (call.countsPassed, call.cond) ∧
      resolveMc call.cond mc = .ok call.mcSamples ∧ call.test = test := by
  unfold run_aldex2 at h
  cases hp : prepare counts md with
  | ok pr =>
    obtain ⟨ic, cond⟩ := pr
    rw [hp] at h
    dsimp only at h
    cases hr : resolveMc cond mc with
    | ok m =>
      rw [hr] at h
      dsimp only at h
      injection h with h
      subst h
      exact ⟨rfl, hr, rfl⟩

    | assertionError => rw [hr] at h; exact absurd h (by simp)
    | pandasError => rw [hr] at h; exact absurd h (by simp)
  | assertionError => rw [hp] at h; exact absurd h (by simp)
  | pandasError => rw [hp] at h; exact absurd h (by simp)

theorem run_aldex2_assertion_iff (counts : DataFrame Nat) (md : DataFrame String)
    (test : String) (mc : Option Nat) :
    run_aldex2 counts md test mc = .assertionError ↔
      prepare counts md = .assertionError := by
  unfold run_aldex2
  cases hp : prepare counts md with
  | ok pr =>
    obtain ⟨ic, cond⟩ := pr
    dsimp only
    cases hr : resolveMc cond mc with
    | ok m => simp
    | assertionError => exact absurd hr (resolveMc_ne_assertion cond mc)
    | pandasError => simp
  | assertionError => simp
  | pandasError => simp

theorem run_aldex2_pandas_elim {counts : DataFrame Nat} {md : DataFrame String}
    {test : String} {mc : Option Nat}
    (h : run_aldex2 counts md test mc = .pandasError) :
    (fixOrientation counts md).colIdx.length = md.rowIdx.length := by
  unfold run_aldex2 at h
  cases hp : prepare counts md with
  | ok pr =>
    obtain ⟨ic, cond⟩ := pr
    have h1 := prepare_ok_elim hp
    rw [← h1.1]
    exact h1.2.1
  | assertionError => rw [hp] at h; exact absurd h (by simp)
  | pandasError => exact prepare_pandas_elim hp

theorem get_clr_instance_ok_elim {oracle : ROracle} {counts : DataFrame Nat}
    {md : DataFrame String} {i : Nat} {mc : Option Nat} {p : ClrCall × DataFrame ℚ}
    (h : get_clr_instance oracle counts md i mc = .ok p) :
    ∃ cond, prepare counts md = .ok (fixOrientation counts md, cond) ∧
      resolveMc cond mc = .ok p.1.mcSamples ∧
      p.1 = ⟨dropZeroRows (fixOrientation counts md), cond, p.1.mcSamples, i⟩ ∧
      p.2 = clrResultFrame oracle (dropZeroRows (fixOrientation counts md)) cond
        p.1.mcSamples i := by
  unfold get_clr_instance at h
  cases hp : prepare counts md with
  | ok pr =>
    obtain ⟨ic, cond⟩ := pr
    have hic : ic = fixOrientation counts md := (prepare_ok_elim hp).1
    subst hic
    rw [hp] at h
    dsimp only at h
    cases hr : resolveMc cond mc with
    | ok m =>
      rw [hr] at h
      dsimp only at h
      injection h with h
      subst h
      exact ⟨cond, rfl, hr, rfl, rfl⟩
    | assertionError => rw [hr] at h; exact absurd h (by simp)
    | pandasError => rw [hr] at h; exact absurd h (by simp)
  | assertionError => rw [hp] at h; exact absurd h (by simp)
  | pandasError => rw [hp] at h; exact absurd h (by simp)

/-! ## C1: Monte-Carlo sample count resolution -/

theorem valueCountsMin_spec {l : List String} {m : Nat} (h : valueCountsMin l = some m) :
    (∃ s ∈ l, l.count s = m) ∧ ∀ s ∈ l, m ≤ l.count s := by
  unfold valueCountsMin at h
  have h2 := (List.min?_eq_some_iff (fun a => le_refl a) (fun a b => min_choice a b)
    (fun a b c => le_min_iff)).mp h
  obtain ⟨hmem, hle⟩ := h2
  constructor
  · obtain ⟨s, hs, hcount⟩ := List.mem_map.mp hmem
    exact ⟨s, List.mem_dedup.mp hs, hcount⟩
  · intro s hs
    exact hle _ (List.mem_map.mpr ⟨s, List.mem_dedup.mpr hs, rfl⟩)

theorem resolveMc_auto_elim {cond : List String} {m : Nat}
    (h : resolveMc cond none = .ok m) :
    ∃ sg, m = 1000 / sg ∧ (∃ s ∈ cond, cond.count s = sg) ∧
      ∀ s ∈ cond, sg ≤ cond.count s := by
  unfold resolveMc at h
  cases hv : valueCountsMin cond with
  | none => rw [hv] at h; exact absurd h (by simp)
  | some sg =>
    rw [hv] at h
    injection h with h
    exact ⟨sg, h.symm, valueCountsMin_spec hv⟩

theorem resolveMc_explicit {cond : List String} {n m : Nat}
    (h : resolveMc cond (some n) = .ok m) : m = n := by
  unfold resolveMc at h
  injection h with h
  exact h.symm

/-- **C1**: with the `"auto"` sentinel, `run_aldex2` and `get_clr_instance`
resolve the Monte-Carlo sample count to `⌊1000 / smallest_group_size⌋`, where
`smallest_group_size` is the least number of samples sharing a label in the
condition vector (so the metadata has at least one non-empty group on every
successful run); with an explicit integer, that integer is passed to the
external routine unchanged. -/
theorem mc_sample_resolution (counts : DataFrame Nat) (md : DataFrame String)
    (test : String) (oracle : ROracle) (i n : Nat) :
    (∀ call, run_aldex2 counts md test none = RunResult.ok call →
      ∃ sg, call.mcSamples = 1000 / sg ∧ (∃ s ∈ call.cond, call.cond.count s = sg) ∧
        ∀ s ∈ call.cond, sg ≤ call.cond.count s) ∧
    (∀ call, run_aldex2 counts md test (some n) = RunResult.ok call →
      call.mcSamples = n) ∧
    (∀ p, get_clr_instance oracle counts md i none = RunResult.ok p →
      ∃ sg, p.1.mcSamples = 1000 / sg ∧ (∃ s ∈ p.1.cond, p.1.cond.count s = sg) ∧
        ∀ s ∈ p.1.cond, sg ≤ p.1.cond.count s) ∧
    (∀ p, get_clr_instance oracle counts md i (some n) = RunResult.ok p →
      p.1.mcSamples = n) := by
  refine ⟨fun call hc => ?_, fun call hc => ?_, fun p hp => ?_, fun p hp => ?_⟩
  · exact resolveMc_auto_elim (run_aldex2_ok_elim hc).2.1
  · exact resolveMc_explicit (run_aldex2_ok_elim hc).2.1
  · obtain ⟨cond, -, hr, hcall, -⟩ := get_clr_instance_ok_elim hp
    have hcond : p.1.cond = cond := by rw [hcall]
    rw [hcond]
    exact resolveMc_auto_elim hr
  · obtain ⟨cond, -, hr, -, -⟩ := get_clr_instance_ok_elim hp
    exact resolveMc_explicit hr

/-- Concrete frames for the C1 witness: three samples, groups of sizes 1
and 2, so the auto resolution gives `1000 / 1 = 1000`. -/
def c1Counts : DataFrame Nat := ⟨["f1", "f2"], ["s1", "s2", "s3"], [[1, 0, 2], [0, 0, 0]]⟩

def c1Md : DataFrame String := ⟨["s2", "s1", "s3"], ["group"], [["a"], ["b"], ["a"]]⟩

def c1CallAuto : AldexCall :=
  ⟨⟨["f1", "f2"], ["s1", "s2", "s3"], [[1, 0, 2], [0, 0, 0]]⟩, ["b", "a", "a"], 1000, "t"⟩

theorem mc_sample_resolution_witness :
    ∃ sg, c1CallAuto.mcSamples = 1000 / sg ∧
      (∃ s ∈ c1CallAuto.cond, c1CallAuto.cond.count s = sg) ∧
      ∀ s ∈ c1CallAuto.cond, sg ≤ c1CallAuto.cond.count s :=
  (mc_sample_resolution c1Counts c1Md "t" (fun _ _ _ _ _ _ => 0) 1 7).1 c1CallAuto (by decide)

/-! ## C2: sample-dimension validation -/

/-- Counts and metadata with matching sample dimensions (1 = 1) but a counts
column label (`"a"`) absent from the metadata index (`["x"]`). -/
def c2Counts : DataFrame Nat := ⟨["f1"], ["a"], [[1]]⟩

def c2Md : DataFrame String := ⟨["x"], ["g"], [["u"]]⟩

/-- **C2 counterexample**: on `c2Counts` / `c2Md` the run neither reaches the
external invocation nor fails with the assertion: the shapes agree, so the
assertion passes, and `metadata.loc[["a"]]` then raises a `KeyError` before
the external routine is invoked.  The claimed two-way disjunction is false at
this input. -/
theorem shape_disjunction_cex :
    ¬ ((∃ call, run_aldex2 c2Counts c2Md "t" (some 128) = RunResult.ok call ∧
          call.countsPassed.colIdx.length = c2Md.rowIdx.length) ∨
        run_aldex2 c2Counts c2Md "t" (some 128) = RunResult.assertionError) := by
  have h : run_aldex2 c2Counts c2Md "t" (some 128) = RunResult.pandasError := by decide
  rintro (⟨call, hc, -⟩ | hc) <;> rw [h] at hc <;> exact RunResult.noConfusion hc

/-- **C2 (amended)**: every run of `run_aldex2` either reaches the external
invocation with the (possibly transposed) counts table having a column count
equal to the metadata row count, fails with the assertion — which happens
exactly when the sample dimensions disagree even after the orientation fix —
or fails with a pandas error (missing sample label, missing metadata column,
or auto-resolution over an empty group series) before invoking the external
routine; in the pandas-error case the assertion (the only explicit, local
validation) had already passed. -/
theorem shape_validation_trichotomy (counts : DataFrame Nat) (md : DataFrame String)
    (test : String) (mc : Option Nat) :
    (∀ call, run_aldex2 counts md test mc = RunResult.ok call →
      call.countsPassed.colIdx.length = md.rowIdx.length) ∧
    (run_aldex2 counts md test mc = RunResult.assertionError ↔
      (fixOrientation counts md).colIdx.length ≠ md.rowIdx.length) ∧
    (run_aldex2 counts md test mc = RunResult.pandasError →
      (fixOrientation counts md).colIdx.length = md.rowIdx.length) := by
  refine ⟨fun call hc => ?_, ?_, fun h => run_aldex2_pandas_elim h⟩
  · exact (run_aldex2_ok_elim hc).1 |> prepare_ok_elim |>.2.1
  · rw [run_aldex2_assertion_iff, prepare_assertion_iff]

theorem shape_validation_trichotomy_witness :
    run_aldex2 c2Counts c2Md "t" (some 128) = RunResult.pandasError →
      (fixOrientation c2Counts c2Md).colIdx.length = c2Md.rowIdx.length :=
  (shape_validation_trichotomy c2Counts c2Md "t" (some 128)).2.2

/-! ## C3: orientation auto-detection -/

/-- A 2×3 counts frame and a 5-row metadata frame: neither counts dimension
matches the metadata row count. -/
def c3Counts : DataFrame Nat := ⟨["f1", "f2"], ["a", "b", "c"], [[1, 2, 3], [4, 5, 6]]⟩

def c3Md : DataFrame String :=
  ⟨["x1", "x2", "x3", "x4", "x5"], ["g"], [["u"], ["u"], ["v"], ["v"], ["v"]]⟩

/-- **C3 counterexample**: when neither dimension of the counts table matches
the metadata row count, the claim says the table is not transposed; the code
transposes it anyway (the guard is only `shape[1] != metadata.shape[0]`). -/
theorem transpose_iff_cex :
    c3Md.rowIdx.length ≠ c3Counts.rowIdx.length ∧
    c3Md.rowIdx.length ≠ c3Counts.colIdx.length ∧
    fixOrientation c3Counts c3Md ≠ c3Counts ∧
    fixOrientation c3Counts c3Md = c3Counts.T := by decide

/-- **C3 (amended)**: `run_aldex2` and `get_clr_instance` transpose the
counts table if and only if its column count differs from the metadata row
count; when the column count already matches, the table is left in its given
orientation, and when neither dimension matches, the table is still
transposed and the subsequent assertion then fails. -/
theorem orientation_fix_spec (counts : DataFrame Nat) (md : DataFrame String)
    (test : String) (mc : Option Nat) (oracle : ROracle) (i : Nat) :
    (counts.colIdx.length = md.rowIdx.length → fixOrientation counts md = counts) ∧
    (counts.colIdx.length ≠ md.rowIdx.length → fixOrientation counts md = counts.T) ∧
    (∀ call, run_aldex2 counts md test mc = RunResult.ok call →
      call.countsPassed = fixOrientation counts md) ∧
    (∀ p, get_clr_instance oracle counts md i mc = RunResult.ok p →
      p.1.countsPassed = dropZeroRows (fixOrientation counts md)) ∧
    (counts.colIdx.length ≠ md.rowIdx.length → counts.rowIdx.length ≠ md.rowIdx.length →
      run_aldex2 counts md test mc = RunResult.assertionError) := by
  refine ⟨fun h => ?_, fun h => ?_, fun call hc => ?_, fun p hp => ?_, fun h1 h2 => ?_⟩
  · unfold fixOrientation; rw [if_neg (by simpa using h)]
  · unfold fixOrientation; rw [if_pos h]
  · have := (run_aldex2_ok_elim hc).1 |> prepare_ok_elim |>.1
    simpa using this
  · obtain ⟨cond, -, -, hcall, -⟩ := get_clr_instance_ok_elim hp
    rw [hcall]
  · rw [run_aldex2_assertion_iff, prepare_assertion_iff]
    unfold fixOrientation
    rw [if_pos h1]
    simpa using h2

theorem orientation_fix_spec_witness :
    fixOrientation c1Counts c1Md = c1Counts :=
  (orientation_fix_spec c1Counts c1Md "t" none (fun _ _ _ _ _ _ => 0) 1).1 (by decide)

/-! ## C9: effect-size bucket assignment at the threshold -/

/-- **C9**: a result row lands in the highlighted `"big"` (red) bucket
exactly when `abs(effect)` is strictly greater than the threshold; at
equality the row is assigned to the `"small"` (black) bucket, whose hue label
nevertheless reads `abs(effect) < threshold`. -/
theorem ma_bucket_boundary (x thr : ℚ) :
    (ma_size thr x = "big" ↔ thr < |x|) ∧
    (|x| = thr → ma_size thr x = "small" ∧
      ma_hue thr x = "abs(effect) < " ++ toString thr) := by
  constructor
  · unfold ma_size
    split_ifs with h
    · simp [h]
    · simp only [h, iff_false]
      decide
  · intro heq
    have hlt : ¬ thr < |x| := by rw [heq]; exact lt_irrefl thr
    unfold ma_size ma_hue
    rw [if_neg hlt, if_neg hlt]
    exact ⟨rfl, rfl⟩

theorem ma_bucket_boundary_witness :
    ma_size 2 2 = "small" ∧ ma_hue 2 2 = "abs(effect) < " ++ toString (2 : ℚ) :=
  (ma_bucket_boundary 2 2).2 (by norm_num)

/-! ## C8: legend presence in `MA_plot` -/

theorem dedup_eq_singleton_of_all {α : Type} [DecidableEq α] {l : List α} {a : α}
    (hne : l ≠ []) (hall : ∀ x ∈ l, x = a) : l.dedup = [a] := by
  induction l with
  | nil => exact absurd rfl hne
  | cons b t ih =>
    have hb : b = a := hall b (by simp)
    subst hb
    cases t with
    | nil => simp
    | cons c t2 =>
      have hc : c = b := (hall c (by simp)).trans (hall b (by simp)).symm
      have hmem : b ∈ c :: t2 := by rw [hc]; simp
      rw [List.dedup_cons_of_mem hmem]
      exact ih (by simp) fun x hx => hall x (by simp [hx])

/-- **C8**: for a non-empty result table, `MA_plot` keeps the legend (with
the two hue entries) exactly when the effect values fall into both buckets;
when every effect value falls into a single bucket, the legend is removed. -/
theorem ma_legend_spec (thr : ℚ) (effects : List ℚ) (hne : effects ≠ []) :
    (ma_legendRemoved thr effects = false ↔
      (∃ x ∈ effects, thr < |x|) ∧ ∃ x ∈ effects, ¬ thr < |x|) := by
  have hmapne : effects.map (ma_size thr) ≠ [] := by simpa using hne
  unfold ma_legendRemoved
  rw [decide_eq_false_iff_not]
  constructor
  · intro hlen
    by_contra hnb
    rcases not_and_or.mp hnb with hA | hB
    · push_neg at hA
      apply hlen
      have hd : (effects.map (ma_size thr)).dedup = ["small"] :=
        dedup_eq_singleton_of_all hmapne fun x hx => by
          obtain ⟨y, hy, hxy⟩ := List.mem_map.mp hx
          rw [← hxy]
          unfold ma_size
          rw [if_neg (not_lt.mpr (hA y hy))]
      rw [hd]
      rfl
    · push_neg at hB
      apply hlen
      have hd : (effects.map (ma_size thr)).dedup = ["big"] :=
        dedup_eq_singleton_of_all hmapne fun x hx => by
          obtain ⟨y, hy, hxy⟩ := List.mem_map.mp hx
          rw [← hxy]
          unfold ma_size
          rw [if_pos (hB y hy)]
      rw [hd]
      rfl
  · rintro ⟨⟨xb, hxb, hb⟩, ⟨xs, hxs, hs⟩⟩ hlen
    obtain ⟨a, ha⟩ := List.length_eq_one.mp hlen
    have hbig : "big" ∈ (effects.map (ma_size thr)).dedup := by
      rw [List.mem_dedup]
      exact List.mem_map.mpr ⟨xb, hxb, by unfold ma_size; rw [if_pos hb]⟩
    have hsmall : "small" ∈ (effects.map (ma_size thr)).dedup := by
      rw [List.mem_dedup]
      exact List.mem_map.mpr ⟨xs, hxs, by unfold ma_size; rw [if_neg hs]⟩
    rw [ha] at hbig hsmall
    simp only [List.mem_singleton] at hbig hsmall
    exact absurd (hbig.trans hsmall.symm) (by decide)

theorem ma_legend_spec_witness :
    ma_legendRemoved 2 [1, 3] = false ↔
      (∃ x ∈ [(1 : ℚ), 3], (2 : ℚ) < |x|) ∧ ∃ x ∈ [(1 : ℚ), 3], ¬ (2 : ℚ) < |x| :=
  ma_legend_spec 2 [1, 3] (by decide)

/-! ## C6: all-zero feature rows are dropped -/

/-- **C6**: `get_clr_instance` passes to the external routine exactly the
feature rows of the (orientation-fixed) counts whose row sum is positive;
those surviving features form the row index of the returned CLR frame, and a
feature with at least one positive count is never dropped. -/
theorem drop_zero_features_spec (oracle : ROracle) (counts : DataFrame Nat)
    (md : DataFrame String) (i : Nat) (mc : Option Nat) (p : ClrCall × DataFrame ℚ)
    (h : get_clr_instance oracle counts md i mc = RunResult.ok p) :
    p.1.countsPassed = dropZeroRows (fixOrientation counts md) ∧
    p.2.rowIdx = (((fixOrientation counts md).rowIdx.zip
      (fixOrientation counts md).data).filter fun q => decide (0 < q.2.sum)).map Prod.fst ∧
    ∀ q ∈ (fixOrientation counts md).rowIdx.zip (fixOrientation counts md).data,
      (∃ x ∈ q.2, 0 < x) → q.1 ∈ p.2.rowIdx := by
  obtain ⟨cond, -, -, hcall, hdf⟩ := get_clr_instance_ok_elim h
  refine ⟨by rw [hcall], by rw [hdf]; rfl, ?_⟩
  intro q hq hpos
  rw [hdf]
  show q.1 ∈ (dropZeroRows (fixOrientation counts md)).rowIdx
  unfold dropZeroRows
  simp only [List.mem_map]
  refine ⟨q, List.mem_filter.mpr ⟨hq, ?_⟩, rfl⟩
  obtain ⟨x, hx, hxpos⟩ := hpos
  have hsum : q.2.sum ≠ 0 := fun h0 =>
    absurd (List.sum_eq_zero_iff.mp h0 x hx) (Nat.pos_iff_ne_zero.mp hxpos)
  simpa using Nat.pos_of_ne_zero hsum

/-- Concrete frames for the C6 witness: feature `f1` is all-zero and must be
dropped, feature `f2` has positive counts and must survive. -/
def c6Counts : DataFrame Nat := ⟨["f1", "f2"], ["s1", "s2"], [[0, 0], [1, 2]]⟩

def c6Md : DataFrame String := ⟨["s1", "s2"], ["g"], [["u"], ["v"]]⟩

def c6P : ClrCall × DataFrame ℚ :=
  (⟨⟨["f2"], ["s1", "s2"], [[1, 2]]⟩, ["u", "v"], 5, 1⟩,
   ⟨["f2"], ["s1", "s2"], [[0, 0]]⟩)

theorem drop_zero_features_spec_witness :
    c6P.1.countsPassed = dropZeroRows (fixOrientation c6Counts c6Md) ∧
    c6P.2.rowIdx = (((fixOrientation c6Counts c6Md).rowIdx.zip
      (fixOrientation c6Counts c6Md).data).filter fun q => decide (0 < q.2.sum)).map Prod.fst ∧
    ∀ q ∈ (fixOrientation c6Counts c6Md).rowIdx.zip (fixOrientation c6Counts c6Md).data,
      (∃ x ∈ q.2, 0 < x) → q.1 ∈ c6P.2.rowIdx :=
  drop_zero_features_spec (fun _ _ _ _ _ _ => 0) c6Counts c6Md 1 (some 5) c6P (by decide)

/-! ## C5: order invariance of the median aggregation -/

theorem sortedVals_perm {l l2 : List ℚ} (h : l.Perm l2) : sortedVals l = sortedVals l2 :=
  List.eq_of_perm_of_sorted
    ((List.perm_insertionSort _ l).trans (h.trans (List.perm_insertionSort _ l2).symm))
    (List.sorted_insertionSort _ l) (List.sorted_insertionSort _ l2)

theorem median_perm {l l2 : List ℚ} (h : l.Perm l2) : median l = median l2 := by
  unfold median
  rw [sortedVals_perm h]

/-- **C5**: on per-instance CLR frames sharing the same row and column
labels, the median aggregation of `get_clr` is invariant under any
permutation of the order in which the frames are combined. -/
theorem medianAggregate_perm_invariant (dfs dfs2 : List (DataFrame ℚ))
    (hperm : dfs.Perm dfs2)
    (hlab : ∀ d ∈ dfs, ∀ e ∈ dfs, d.rowIdx = e.rowIdx ∧ d.colIdx = e.colIdx) :
    medianAggregate dfs = medianAggregate dfs2 := by
  cases dfs with
  | nil => rw [List.nil_perm.mp hperm]
  | cons d t =>
    cases dfs2 with
    | nil => exact absurd (List.perm_nil.mp hperm) (by simp)
    | cons d2 t2 =>
      have hd2mem : d2 ∈ d :: t := hperm.mem_iff.mpr (by simp)
      obtain ⟨hr, hc⟩ := hlab d2 hd2mem d (by simp)
      unfold medianAggregate
      dsimp only
      rw [hr, hc]
      congr 1
      refine congrArg (fun f => List.map f (List.range d.rowIdx.length)) ?_
      funext r
      refine congrArg (fun f => List.map f (List.range d.colIdx.length)) ?_
      funext c
      exact median_perm (hperm.map _)

theorem medianAggregate_perm_invariant_witness :
    medianAggregate [(⟨["g"], ["s"], [[1]]⟩ : DataFrame ℚ), ⟨["g"], ["s"], [[3]]⟩] =
      medianAggregate [(⟨["g"], ["s"], [[3]]⟩ : DataFrame ℚ), ⟨["g"], ["s"], [[1]]⟩] :=
  medianAggregate_perm_invariant _ _
    (List.Perm.swap (⟨["g"], ["s"], [[3]]⟩ : DataFrame ℚ) ⟨["g"], ["s"], [[1]]⟩ [])
    (by decide)

/-! ## C4: `get_clr` = one instance call per index, entry-wise median -/

instance : Inhabited ClrCall := ⟨⟨default, [], 0, 0⟩⟩

theorem mapRR_ok_elim {α : Type} [Inhabited α] {f : Nat → RunResult α} {l : List Nat}
    {as : List α} (h : mapRR f l = .ok as) :
    as.length = l.length ∧
      ∀ k, k < l.length → f (l.getD k 0) = .ok (as.getD k default) := by
  induction l generalizing as with
  | nil =>
    unfold mapRR at h
    injection h with h
    subst h
    exact ⟨rfl, fun k hk => absurd hk (by simp)⟩
  | cons i is ih =>
    unfold mapRR at h
    cases hf : f i with
    | ok a =>
      rw [hf] at h
      dsimp only at h
      cases hm : mapRR f is with
      | ok as2 =>
        rw [hm] at h
        dsimp only at h
        injection h with h
        subst h
        obtain ⟨hlen, hk⟩ := ih hm
        refine ⟨by simp [hlen], fun k hk2 => ?_⟩
        cases k with
        | zero => simpa using hf
        | succ k2 => simpa using hk k2 (by simpa using hk2)
      | assertionError => rw [hm] at h; exact absurd h (by simp)
      | pandasError => rw [hm] at h; exact absurd h (by simp)
    | assertionError => rw [hf] at h; exact absurd h (by simp)
    | pandasError => rw [hf] at h; exact absurd h (by simp)

theorem range_map_succ_getD {n k : Nat} (h : k < n) :
    ((List.range n).map (· + 1)).getD k 0 = k + 1 := by
  rw [List.getD_eq_getElem?_getD, List.getElem?_map, List.getElem?_range h]
  rfl

theorem getD_map_range {α : Type} (n r : Nat) (f : Nat → α) (d : α) (h : r < n) :
    ((List.range n).map f).getD r d = f r := by
  rw [List.getD_eq_getElem?_getD, List.getElem?_map, List.getElem?_range h]
  rfl

theorem medianAggregate_entry (d : DataFrame ℚ) (t : List (DataFrame ℚ)) (r c : Nat)
    (hr : r < d.rowIdx.length) (hc : c < d.colIdx.length) :
    (medianAggregate (d :: t)).entry r c =
      median ((d :: t).map fun e => e.entry r c) := by
  have h1 : (medianAggregate (d :: t)).entry r c =
      (((List.range d.rowIdx.length).map fun r2 =>
        (List.range d.colIdx.length).map fun c2 =>
          median ((d :: t).map fun e => e.entry r2 c2)).getD r []).getD c default := rfl
  rw [h1, getD_map_range _ _ _ _ hr, getD_map_range _ _ _ _ hc]

/-- **C4**: for a positive `mc_samples`, a successful `get_clr` run invokes
`get_clr_instance` once for each instance index `1, ..., mc_samples`
inclusive, the per-instance frames all carry the labels of the result, and
every entry of the result equals the median across those instances of the
corresponding per-instance CLR entries. -/
theorem get_clr_median_spec (oracle : ROracle) (counts : DataFrame Nat)
    (md : DataFrame String) (mc : Nat) (hmc : 0 < mc) (df : DataFrame ℚ)
    (h : get_clr oracle counts md mc = RunResult.ok df) :
    ∃ ps : List (ClrCall × DataFrame ℚ),
      ps.length = mc ∧
      (∀ k, k < mc → get_clr_instance oracle counts md (k + 1) (some mc) =
        RunResult.ok (ps.getD k default)) ∧
      (∀ p ∈ ps, p.2.rowIdx = df.rowIdx ∧ p.2.colIdx = df.colIdx) ∧
      ∀ r c, r < df.rowIdx.length → c < df.colIdx.length →
        df.entry r c = median (ps.map fun p => p.2.entry r c) := by
  unfold get_clr at h
  cases hm : mapRR (fun i => get_clr_instance oracle counts md i (some mc))
      ((List.range mc).map (· + 1)) with
  | ok insts =>
    rw [hm] at h
    dsimp only at h
    injection h with h
    obtain ⟨hlen, hk⟩ := mapRR_ok_elim hm
    rw [List.length_map, List.length_range] at hlen
    have hinst : ∀ k, k < mc → get_clr_instance oracle counts md (k + 1) (some mc) =
        RunResult.ok (insts.getD k default) := by
      intro k hk2
      have h2 := hk k (by simpa using hk2)
      rwa [range_map_succ_getD hk2] at h2
    have hall : ∀ p ∈ insts,
        p.2.rowIdx = (dropZeroRows (fixOrientation counts md)).rowIdx ∧
        p.2.colIdx = (dropZeroRows (fixOrientation counts md)).colIdx := by
      intro p hp
      obtain ⟨k, hk2, hpk⟩ := List.mem_iff_getElem.mp hp
      have hok := hinst k (by omega)
      rw [List.getD_eq_getElem?_getD, List.getElem?_eq_getElem hk2] at hok
      simp only [Option.getD_some] at hok
      rw [hpk] at hok
      obtain ⟨cond, -, -, -, hdf⟩ := get_clr_instance_ok_elim hok
      rw [hdf]
      exact ⟨rfl, rfl⟩
    cases insts with
    | nil => rw [List.length_nil] at hlen; omega
    | cons p0 pt =>
      have hdfrow : df.rowIdx = p0.2.rowIdx := by rw [← h]; rfl
      have hdfcol : df.colIdx = p0.2.colIdx := by rw [← h]; rfl
      refine ⟨p0 :: pt, hlen, hinst, fun p hp => ?_, fun r c hr hc => ?_⟩
      · obtain ⟨h1, h2⟩ := hall p hp
        obtain ⟨h3, h4⟩ := hall p0 (by simp)
        rw [hdfrow, hdfcol, h3, h4]
        exact ⟨h1, h2⟩
      · rw [← h]
        have : (p0 :: pt).map Prod.snd = p0.2 :: pt.map Prod.snd := rfl
        rw [this]
        rw [medianAggregate_entry p0.2 (pt.map Prod.snd) r c
          (by rw [← hdfrow]; exact hr) (by rw [← hdfcol]; exact hc)]
        congr 1
        have h5 : (p0.2 :: pt.map Prod.snd) = (p0 :: pt).map Prod.snd := rfl
        rw [h5, List.map_map]
        rfl
  | assertionError => rw [hm] at h; exact absurd h (by simp)
  | pandasError => rw [hm] at h; exact absurd h (by simp)

/-- Concrete data for the C4 witness: one feature, one sample, three
Monte-Carlo instances whose oracle values are the instance index, so the
aggregated entry is `median [1, 2, 3] = 2`. -/
def c4Counts : DataFrame Nat := ⟨["f1"], ["s1"], [[2]]⟩

def c4Md : DataFrame String := ⟨["s1"], ["g"], [["u"]]⟩

def c4Oracle : ROracle := fun _ _ _ i _ _ => (i : ℚ)

def c4Df : DataFrame ℚ := ⟨["f1"], ["s1"], [[2]]⟩

theorem get_clr_median_spec_witness :
    ∃ ps : List (ClrCall × DataFrame ℚ),
      ps.length = 3 ∧
      (∀ k, k < 3 → get_clr_instance c4Oracle c4Counts c4Md (k + 1) (some 3) =
        RunResult.ok (ps.getD k default)) ∧
      (∀ p ∈ ps, p.2.rowIdx = c4Df.rowIdx ∧ p.2.colIdx = c4Df.colIdx) ∧
      ∀ r c, r < c4Df.rowIdx.length → c < c4Df.colIdx.length →
        c4Df.entry r c = median (ps.map fun p => p.2.entry r c) :=
  get_clr_median_spec c4Oracle c4Counts c4Md 3 (by decide) c4Df (by decide)

/-! ## C7: condition vector = first metadata column in counts-column order,
invariance under metadata row permutation -/

/-- The first-column metadata entry for sample label `s` (the value
`metadata.loc[s].iloc[0]` when the metadata index is duplicate-free). -/
def firstColEntry (md : DataFrame String) (s : String) : String :=
  (((md.rowIdx.zip md.data).filter fun p => p.1 == s).map fun p => p.2.headD "").headD ""

theorem filter_key_length_le_one {β : Type} {l : List (String × β)}
    (h : (l.map Prod.fst).Nodup) (s : String) :
    (l.filter fun p => p.1 == s).length ≤ 1 := by
  induction l with
  | nil => simp
  | cons a t ih =>
    rw [List.map_cons, List.nodup_cons] at h
    rw [List.filter_cons]
    by_cases ha : a.1 = s
    · rw [if_pos (by simpa using ha)]
      have hnil : (t.filter fun p => p.1 == s) = [] := by
        rw [List.filter_eq_nil_iff]
        intro p hp hps
        exact h.1 (List.mem_map.mpr ⟨p, hp, by simpa using (show p.1 = s from by simpa using hps).trans ha.symm⟩)
      rw [hnil]
      simp
    · rw [if_neg (by simpa using ha)]
      exact ih h.2

theorem perm_eq_of_length_le_one {α : Type} {l l2 : List α}
    (h : l.Perm l2) (hl : l.length ≤ 1) : l = l2 := by
  cases l with
  | nil => exact (List.nil_perm.mp h).symm
  | cons a t =>
    cases t with
    | nil => exact List.singleton_perm.mp h
    | cons b t2 => simp at hl

theorem filter_key_perm_eq {β : Type} {l l2 : List (String × β)}
    (hperm : l.Perm l2) (h : (l.map Prod.fst).Nodup) (s : String) :
    (l.filter fun p => p.1 == s) = l2.filter fun p => p.1 == s :=
  perm_eq_of_length_le_one (hperm.filter _) (filter_key_length_le_one h s)

theorem any_key_perm_eq {β : Type} {l l2 : List (String × β)}
    (hperm : l.Perm l2) (s : String) :
    (l.any fun p => p.1 == s) = l2.any fun p => p.1 == s := by
  cases h2 : l2.any fun p => p.1 == s with
  | true =>
    rw [List.any_eq_true] at h2 ⊢
    obtain ⟨x, hx, hxs⟩ := h2
    exact ⟨x, hperm.mem_iff.mpr hx, hxs⟩
  | false =>
    rw [List.any_eq_false] at h2 ⊢
    exact fun x hx => h2 x (hperm.mem_iff.mp hx)

/-- Permuting the metadata rows does not change `condVector` when the
metadata index is duplicate-free. -/
theorem condVector_perm_eq {md md2 : DataFrame String} (cols : List String)
    (hwf : md.WF) (hnd : md.rowIdx.Nodup) (hcols : md2.colIdx = md.colIdx)
    (hperm : (md2.rowIdx.zip md2.data).Perm (md.rowIdx.zip md.data)) :
    condVector md2 cols = condVector md cols := by
  have hkeys : ((md.rowIdx.zip md.data).map Prod.fst).Nodup := by
    rw [List.map_fst_zip md.rowIdx md.data (le_of_eq hwf.1.symm)]
    exact hnd
  have hkeys2 : ((md2.rowIdx.zip md2.data).map Prod.fst).Nodup :=
    ((hperm.map Prod.fst).nodup_iff).mpr hkeys
  have hany : (fun s => (md2.rowIdx.zip md2.data).any fun p => p.1 == s) =
      fun s => (md.rowIdx.zip md.data).any fun p => p.1 == s :=
    funext fun s => any_key_perm_eq hperm s
  have hfil : (fun s => ((md2.rowIdx.zip md2.data).filter fun p => p.1 == s).map
        fun p => p.2.headD "") =
      fun s => ((md.rowIdx.zip md.data).filter fun p => p.1 == s).map
        fun p => p.2.headD "" :=
    funext fun s => by rw [filter_key_perm_eq hperm hkeys2 s]
  unfold condVector
  rw [hany, hcols, hfil]

theorem length_zip_rowIdx {md : DataFrame String} (hwf : md.WF) :
    (md.rowIdx.zip md.data).length = md.rowIdx.length := by
  rw [List.length_zip, hwf.1]
  exact min_self _

/-- A successful `condVector` is, for a duplicate-free metadata index, the
pointwise first-column reorder of the metadata. -/
theorem condVector_eq_map {md : DataFrame String} {cols cond : List String}
    (hnd : (md.rowIdx.zip md.data).map Prod.fst |>.Nodup)
    (h : condVector md cols = some cond) :
    cond = cols.map (firstColEntry md) := by
  unfold condVector at h
  by_cases h1 : (cols.all fun s => (md.rowIdx.zip md.data).any fun p => p.1 == s) = true
  swap
  · rw [if_neg h1] at h
    exact absurd h (by simp)
  rw [if_pos h1] at h
  by_cases h2 : md.colIdx.length = 0
  · rw [if_pos h2] at h
    exact absurd h (by simp)
  rw [if_neg h2] at h
  injection h with h
  rw [← h]
  have hlen : ∀ s ∈ cols,
      (((md.rowIdx.zip md.data).filter fun p => p.1 == s).map
        fun p => p.2.headD "").length = 1 := by
    intro s hs
    rw [List.length_map]
    have hle := filter_key_length_le_one hnd s
    have hpres := (List.all_eq_true.mp h1) s hs
    rw [List.any_eq_true] at hpres
    obtain ⟨p, hp, hps⟩ := hpres
    have hne : ((md.rowIdx.zip md.data).filter fun q => q.1 == s) ≠ [] := by
      intro hnil
      rw [List.filter_eq_nil_iff] at hnil
      exact hnil p hp hps
    have hpos := List.length_pos.mpr hne
    omega
  clear h h1 h2
  induction cols with
  | nil => rfl
  | cons a t ih =>
    rw [List.flatMap_cons, List.map_cons]
    obtain ⟨y, hy⟩ := List.length_eq_one.mp (hlen a (by simp))
    rw [hy, ih fun s hs => hlen s (by simp [hs])]
    unfold firstColEntry
    rw [hy]
    rfl

/-- **C7**: on a successful run the condition vector handed to the external
routine is the first metadata column reordered to the (orientation-fixed)
counts columns, and permuting the metadata rows (same labels, same rows,
any order) leaves the entire external argument tuple of `run_aldex2` and of
`get_clr_instance` unchanged — assuming a duplicate-free metadata index. -/
theorem cond_vector_reorder_perm (counts : DataFrame Nat) (md md2 : DataFrame String)
    (test : String) (mc : Option Nat) (oracle : ROracle) (i : Nat)
    (hwf : md.WF) (hnd : md.rowIdx.Nodup) (hcols : md2.colIdx = md.colIdx)
    (hperm : (md2.rowIdx.zip md2.data).Perm (md.rowIdx.zip md.data))
    (hwf2 : md2.WF) :
    (∀ call, run_aldex2 counts md test mc = RunResult.ok call →
      call.cond = (fixOrientation counts md).colIdx.map (firstColEntry md)) ∧
    run_aldex2 counts md2 test mc = run_aldex2 counts md test mc ∧
    get_clr_instance oracle counts md2 i mc = get_clr_instance oracle counts md i mc := by
  have hkeys : ((md.rowIdx.zip md.data).map Prod.fst).Nodup := by
    rw [List.map_fst_zip md.rowIdx md.data (le_of_eq hwf.1.symm)]
    exact hnd
  have hlen : md2.rowIdx.length = md.rowIdx.length := by
    rw [← length_zip_rowIdx hwf, ← length_zip_rowIdx hwf2]
    exact hperm.length_eq
  have hfix : fixOrientation counts md2 = fixOrientation counts md := by
    unfold fixOrientation
    rw [hlen]
  have hprep : prepare counts md2 = prepare counts md := by
    unfold prepare
    rw [hfix, hlen, condVector_perm_eq _ hwf hnd hcols hperm]
  refine ⟨fun call hc => ?_, ?_, ?_⟩
  · obtain ⟨hp, -, -⟩ := run_aldex2_ok_elim hc
    obtain ⟨hic, -, hcv⟩ := prepare_ok_elim hp
    have := condVector_eq_map hkeys hcv
    rw [hic] at this
    exact this
  · unfold run_aldex2
    rw [hprep]
  · unfold get_clr_instance
    rw [hprep]

/-- Concrete frames for the C7 witness: two samples, metadata given in the
reverse of the counts-column order; `md2` is `md` with its rows permuted. -/
def c7Counts : DataFrame Nat := ⟨["f1"], ["s1", "s2"], [[1, 2]]⟩

def c7Md : DataFrame String := ⟨["s2", "s1"], ["g"], [["v"], ["u"]]⟩

def c7Md2 : DataFrame String := ⟨["s1", "s2"], ["g"], [["u"], ["v"]]⟩

theorem cond_vector_reorder_perm_witness :
    (∀ call, run_aldex2 c7Counts c7Md "t" (some 8) = RunResult.ok call →
      call.cond = (fixOrientation c7Counts c7Md).colIdx.map (firstColEntry c7Md)) ∧
    run_aldex2 c7Counts c7Md2 "t" (some 8) = run_aldex2 c7Counts c7Md "t" (some 8) ∧
    get_clr_instance (fun _ _ _ _ _ _ => 0) c7Counts c7Md2 1 (some 8) =
      get_clr_instance (fun _ _ _ _ _ _ => 0) c7Counts c7Md 1 (some 8) :=
  cond_vector_reorder_perm c7Counts c7Md c7Md2 "t" (some 8) (fun _ _ _ _ _ _ => 0) 1
    (by constructor <;> decide) (by decide) (by decide)
    (List.Perm.swap ("s2", ["v"]) ("s1", ["u"]) []) (by constructor <;> decide)

/-! ## C10: the public functions leave caller-supplied tables unmodified -/

theorem getElem?_append_one {α : Type} {l : List α} {j : Nat} (hj : j < l.length)
    (y : α) : (l ++ [y])[j]? = l[j]? :=
  List.getElem?_append_left hj

/-- **C10**: at the heap level, each public function only allocates fresh
cells (the `.copy()` calls and the pandas expressions returning new objects)
and writes only to cells it allocated itself, so every cell that existed
before the call — in particular the caller's counts, metadata and results
tables — is unchanged after it. -/
theorem copy_semantics :
    (∀ (h : List PyObj) (cR mR j : Nat), j < h.length →
      (run_aldex2_heap h cR mR)[j]? = h[j]?) ∧
    (∀ (h : List PyObj) (cR mR j : Nat), j < h.length →
      (get_clr_instance_heap h cR mR)[j]? = h[j]?) ∧
    (∀ (h : List PyTable) (rR : Nat) (thr : ℚ) (j : Nat), j < h.length →
      (MA_plot_heap h rR thr)[j]? = h[j]?) ∧
    (∀ (log10 : ℚ → ℚ) (h : List PyTable) (rR : Nat) (pt : ℚ) (j : Nat),
      j < h.length → (vulcano_plot_heap log10 h rR pt)[j]? = h[j]?) := by
  refine ⟨?_, ?_, ?_, ?_⟩
  · intro h cR mR j hj
    simp only [run_aldex2_heap]
    split
    · rw [getElem?_append_one (by simp; omega),
        getElem?_append_one (by simp; omega), getElem?_append_one hj]
    · rw [getElem?_append_one (by simp; omega), getElem?_append_one hj]
  · intro h cR mR j hj
    simp only [get_clr_instance_heap]
    split
    · rw [getElem?_append_one (by simp; omega), getElem?_append_one (by simp; omega),
        getElem?_append_one (by simp; omega), getElem?_append_one hj]
    · rw [getElem?_append_one (by simp; omega),
        getElem?_append_one (by simp; omega), getElem?_append_one hj]
  · intro h rR thr j hj
    simp only [MA_plot_heap]
    rw [List.getElem?_set_ne (by omega), List.getElem?_set_ne (by omega),
      getElem?_append_one hj]
  · intro log10 h rR pt j hj
    simp only [vulcano_plot_heap]
    rw [List.getElem?_set_ne (by simp; omega),
      getElem?_append_one (by simp [List.length_set]; omega),
      List.getElem?_set_ne (by simp; omega), List.getElem?_set_ne (by simp; omega),
      getElem?_append_one (by simp; omega), getElem?_append_one hj]

theorem copy_semantics_witness :
    ((run_aldex2_heap [PyObj.ndf ⟨["f"], ["s"], [[1]]⟩] 0 0)[0]? =
      [PyObj.ndf (⟨["f"], ["s"], [[1]]⟩ : DataFrame Nat)][0]?) ∧
    ((get_clr_instance_heap [PyObj.ndf ⟨["f"], ["s"], [[1]]⟩] 0 0)[0]? =
      [PyObj.ndf (⟨["f"], ["s"], [[1]]⟩ : DataFrame Nat)][0]?) ∧
    ((MA_plot_heap [⟨["g"], [("effect", [PyVal.num 1])]⟩] 0 2)[0]? =
      [(⟨["g"], [("effect", [PyVal.num 1])]⟩ : PyTable)][0]?) ∧
    ((vulcano_plot_heap id [⟨["g"], [("diff.btw", [PyVal.num 1]),
        ("we.eBH", [PyVal.num 1])]⟩] 0 (1 / 10))[0]? =
      [(⟨["g"], [("diff.btw", [PyVal.num 1]), ("we.eBH", [PyVal.num 1])]⟩ : PyTable)][0]?) :=
  ⟨copy_semantics.1 _ 0 0 0 (by decide), copy_semantics.2.1 _ 0 0 0 (by decide),
    copy_semantics.2.2.1 _ 0 2 0 (by decide), copy_semantics.2.2.2 id _ 0 (1 / 10) 0 (by decide)⟩

end PyAldex2
